import Mathlib

/-!
Verification of the Fixed-Point-Arithmetic module (FixedPoint.c) against its
specification.

The C module converts float values to signed fixed-point containers
(16-bit Q7.8 and 8-bit Q3.4 in the shipped configuration, FixedPoint_cfg.h),
performs integer add/sub/mult/div with symmetric rounding and saturation,
and converts back to float.

Modelling conventions of this shallow embedding:
- Float values are modelled as exact rationals (`ℚ`); the specification
  describes all conversions and rounding rules over real numbers.
- Raw fixed-point container values are modelled as unbounded `Int`.  Every
  raw value the module produces is clamped into the container range before
  being stored, which is proved below, so no wrap-around semantics is needed
  on the produced side.  The intermediate rounded integer of the converters
  is likewise modelled as an unbounded integer, as in the specification
  ("compare the rounded integer against [MIN, MAX]"): a float-to-integer
  cast whose value does not fit the target type has no defined C semantics
  to model.
- Magnitudes inside the multiply/divide cores are modelled as `Nat`,
  mirroring the C code's use of nonnegative widened magnitudes
  (the widening bounds that keep them representable are proved below).
- Output pointers: the claims under verification all concern calls with a
  non-null output slot, so each public wrapper takes the prior contents of
  the output slot as an explicit argument and returns the new contents;
  a wrapper that does not write returns the prior contents unchanged.
-/

/-! ### Types and configuration constants (Global_Types.h, FixedPoint_cfg.h) -/

/-- Standard return type from Global_Types.h: an unsigned char status code. -/
abbrev Std_ReturnType := Nat

/-- Success return code (0x00u). -/
def E_OK : Std_ReturnType := 0

/-- Failure return code (0x01u). -/
def E_NOT_OK : Std_ReturnType := 1

/-- Number of fractional bits for 16-bit fixed-point arithmetic (Q7.8). -/
def SHIFT_16 : Nat := 8

/-- Scaling factor for 16-bit fixed-point arithmetic (1U << SHIFT_16). -/
def SCALE_16 : Nat := 1 <<< SHIFT_16

/-- Number of fractional bits for 8-bit fixed-point arithmetic (Q3.4). -/
def SHIFT_8 : Nat := 4

/-- Scaling factor for 8-bit fixed-point arithmetic (1U << SHIFT_8). -/
def SCALE_8 : Nat := 1 <<< SHIFT_8

/-- Maximum raw fixed-point value for the 16-bit container. -/
def FIX16_MAX : Int := 32767

/-- Minimum raw fixed-point value for the 16-bit container. -/
def FIX16_MIN : Int := -32768

/-- Maximum raw fixed-point value for the 8-bit container. -/
def FIX8_MAX : Int := 127

/-- Minimum raw fixed-point value for the 8-bit container. -/
def FIX8_MIN : Int := -128

/-- Truncation toward zero of a rational value, modelling the C cast from
float to a signed integer type (C truncates toward zero). -/
def truncQ (q : ℚ) : Int := if 0 ≤ q then ⌊q⌋ else ⌈q⌉

/-! ### Converters (FixedPoint.c, FixedPoint_FloatToFix16 / FloatToFix8 /
Fix16ToFloat / Fix8ToFloat) -/

/-- Convert float to 16-bit fixed-point with rounding and saturation,
from FixedPoint_FloatToFix16: scale by SCALE_16, round to nearest
(add 0.5 and truncate for nonnegative scaled values, subtract 0.5 and
truncate for negative ones), then saturate to [FIX16_MIN, FIX16_MAX].
Returns (status, stored raw value) for the non-null pointer path. -/
def FixedPoint_FloatToFix16 (val : ℚ) : Std_ReturnType × Int :=
  let scaled_f : ℚ := val * (SCALE_16 : ℚ)
  let scaled_i : Int :=
    if 0 ≤ scaled_f then truncQ (scaled_f + 1/2) else truncQ (scaled_f - 1/2)
  if scaled_i > FIX16_MAX then (E_NOT_OK, FIX16_MAX)
  else if scaled_i < FIX16_MIN then (E_NOT_OK, FIX16_MIN)
  else (E_OK, scaled_i)

/-- Convert 16-bit fixed-point to float, from FixedPoint_Fix16ToFloat:
exact division of the raw value by the scaling factor. -/
def FixedPoint_Fix16ToFloat (val : Int) : ℚ := (val : ℚ) / (SCALE_16 : ℚ)

/-- Convert float to 8-bit fixed-point with rounding and saturation,
from FixedPoint_FloatToFix8 (same structure as the 16-bit converter with
SCALE_8 and the [FIX8_MIN, FIX8_MAX] limits). -/
def FixedPoint_FloatToFix8 (val : ℚ) : Std_ReturnType × Int :=
  let scaled_f : ℚ := val * (SCALE_8 : ℚ)
  let scaled_i : Int :=
    if 0 ≤ scaled_f then truncQ (scaled_f + 1/2) else truncQ (scaled_f - 1/2)
  if scaled_i > FIX8_MAX then (E_NOT_OK, FIX8_MAX)
  else if scaled_i < FIX8_MIN then (E_NOT_OK, FIX8_MIN)
  else (E_OK, scaled_i)

/-- Convert 8-bit fixed-point to float, from FixedPoint_Fix8ToFloat. -/
def FixedPoint_Fix8ToFloat (val : Int) : ℚ := (val : ℚ) / (SCALE_8 : ℚ)

/-! ### Core operations (FixedPoint.c, integer-only arithmetic) -/

/-- 16-bit addition core, from FixedPoint_Add16_Core: widened integer
addition followed by saturation to [FIX16_MIN, FIX16_MAX].
Returns (status, stored raw value) for the non-null pointer path. -/
def FixedPoint_Add16_Core (a b : Int) : Std_ReturnType × Int :=
  let tmp : Int := a + b
  if tmp > FIX16_MAX then (E_NOT_OK, FIX16_MAX)
  else if tmp < FIX16_MIN then (E_NOT_OK, FIX16_MIN)
  else (E_OK, tmp)

/-- 16-bit subtraction core, from FixedPoint_Sub16_Core. -/
def FixedPoint_Sub16_Core (a b : Int) : Std_ReturnType × Int :=
  let tmp : Int := a - b
  if tmp > FIX16_MAX then (E_NOT_OK, FIX16_MAX)
  else if tmp < FIX16_MIN then (E_NOT_OK, FIX16_MIN)
  else (E_OK, tmp)

/-- 16-bit multiplication core, from FixedPoint_Mult16_Core: widened
product, rounding in the magnitude domain (`neg ? -tmp : tmp` is the
magnitude, i.e. the absolute value; add `1 << (SHIFT_16 - 1)`, shift right
by SHIFT_16, restore the sign), then saturation. -/
def FixedPoint_Mult16_Core (a b : Int) : Std_ReturnType × Int :=
  let tmp : Int := a * b
  let half : Nat := 1 <<< (SHIFT_16 - 1)
  let mag : Nat := tmp.natAbs
  let mag2 : Nat := (mag + half) >>> SHIFT_16
  let tmp2 : Int := if tmp < 0 then -(mag2 : Int) else (mag2 : Int)
  if tmp2 > FIX16_MAX then (E_NOT_OK, FIX16_MAX)
  else if tmp2 < FIX16_MIN then (E_NOT_OK, FIX16_MIN)
  else (E_OK, tmp2)

/-- 16-bit division core, from FixedPoint_Div16_Core: the sign of the result
is negative exactly when the operands have opposite signs (the C code tests
the sign bit of `a ^ b`, which is the exclusive-or of the two sign bits);
magnitudes are widened, the dividend magnitude is left-shifted by SHIFT_16,
half the divisor magnitude (`den_mag >> 1`) is added as rounding bias, then
integer division, sign restoration and saturation.  The caller guarantees
`b ≠ 0`; `Nat` division by zero is total in Lean, so no separate guard is
needed here. -/
def FixedPoint_Div16_Core (a b : Int) : Std_ReturnType × Int :=
  let num_mag : Nat := (a.natAbs <<< SHIFT_16) + (b.natAbs >>> 1)
  let q : Nat := num_mag / b.natAbs
  let tmp : Int := if (a < 0) ≠ (b < 0) then -(q : Int) else (q : Int)
  if tmp > FIX16_MAX then (E_NOT_OK, FIX16_MAX)
  else if tmp < FIX16_MIN then (E_NOT_OK, FIX16_MIN)
  else (E_OK, tmp)

/-- 8-bit addition core, from FixedPoint_Add8_Core. -/
def FixedPoint_Add8_Core (a b : Int) : Std_ReturnType × Int :=
  let tmp : Int := a + b
  if tmp > FIX8_MAX then (E_NOT_OK, FIX8_MAX)
  else if tmp < FIX8_MIN then (E_NOT_OK, FIX8_MIN)
  else (E_OK, tmp)

/-- 8-bit subtraction core, from FixedPoint_Sub8_Core. -/
def FixedPoint_Sub8_Core (a b : Int) : Std_ReturnType × Int :=
  let tmp : Int := a - b
  if tmp > FIX8_MAX then (E_NOT_OK, FIX8_MAX)
  else if tmp < FIX8_MIN then (E_NOT_OK, FIX8_MIN)
  else (E_OK, tmp)

/-- 8-bit multiplication core, from FixedPoint_Mult8_Core (same structure as
the 16-bit core with SHIFT_8 and the 8-bit limits). -/
def FixedPoint_Mult8_Core (a b : Int) : Std_ReturnType × Int :=
  let tmp : Int := a * b
  let half : Nat := 1 <<< (SHIFT_8 - 1)
  let mag : Nat := tmp.natAbs
  let mag2 : Nat := (mag + half) >>> SHIFT_8
  let tmp2 : Int := if tmp < 0 then -(mag2 : Int) else (mag2 : Int)
  if tmp2 > FIX8_MAX then (E_NOT_OK, FIX8_MAX)
  else if tmp2 < FIX8_MIN then (E_NOT_OK, FIX8_MIN)
  else (E_OK, tmp2)

/-- 8-bit division core, from FixedPoint_Div8_Core. -/
def FixedPoint_Div8_Core (a b : Int) : Std_ReturnType × Int :=
  let num_mag : Nat := (a.natAbs <<< SHIFT_8) + (b.natAbs >>> 1)
  let q : Nat := num_mag / b.natAbs
  let tmp : Int := if (a < 0) ≠ (b < 0) then -(q : Int) else (q : Int)
  if tmp > FIX8_MAX then (E_NOT_OK, FIX8_MAX)
  else if tmp < FIX8_MIN then (E_NOT_OK, FIX8_MIN)
  else (E_OK, tmp)

/-! ### Public wrappers (FixedPoint.c, GLOBAL FUNCTIONS)

Each wrapper takes the prior contents of the (non-null) output slot as the
argument `result` and returns (status, new slot contents). -/

/-- 16-bit addition with float interface, from FixedPoint_Add16: convert
both operands, run the addition core, aggregate the three statuses, and
unconditionally write the converted-back result. -/
def FixedPoint_Add16 (val1 val2 : ℚ) (result : ℚ) : Std_ReturnType × ℚ :=
  let c1 := FixedPoint_FloatToFix16 val1
  let c2 := FixedPoint_FloatToFix16 val2
  let core := FixedPoint_Add16_Core c1.2 c2.2
  let ret := if c1.1 = E_OK ∧ c2.1 = E_OK ∧ core.1 = E_OK then E_OK else E_NOT_OK
  (ret, FixedPoint_Fix16ToFloat core.2)

/-- 16-bit subtraction with float interface, from FixedPoint_Sub16. -/
def FixedPoint_Sub16 (val1 val2 : ℚ) (result : ℚ) : Std_ReturnType × ℚ :=
  let c1 := FixedPoint_FloatToFix16 val1
  let c2 := FixedPoint_FloatToFix16 val2
  let core := FixedPoint_Sub16_Core c1.2 c2.2
  let ret := if c1.1 = E_OK ∧ c2.1 = E_OK ∧ core.1 = E_OK then E_OK else E_NOT_OK
  (ret, FixedPoint_Fix16ToFloat core.2)

/-- 16-bit multiplication with float interface, from FixedPoint_Mult16. -/
def FixedPoint_Mult16 (val1 val2 : ℚ) (result : ℚ) : Std_ReturnType × ℚ :=
  let c1 := FixedPoint_FloatToFix16 val1
  let c2 := FixedPoint_FloatToFix16 val2
  let core := FixedPoint_Mult16_Core c1.2 c2.2
  let ret := if c1.1 = E_OK ∧ c2.1 = E_OK ∧ core.1 = E_OK then E_OK else E_NOT_OK
  (ret, FixedPoint_Fix16ToFloat core.2)

/-- 16-bit division with float interface, from FixedPoint_Div16: the divisor
is converted first; if its fixed representation is zero the call fails with
E_NOT_OK and the output slot keeps its prior contents, otherwise the
dividend is converted, the division core runs, statuses are aggregated and
the result is written. -/
def FixedPoint_Div16 (val1 val2 : ℚ) (result : ℚ) : Std_ReturnType × ℚ :=
  let c2 := FixedPoint_FloatToFix16 val2
  if c2.2 ≠ 0 then
    let c1 := FixedPoint_FloatToFix16 val1
    let core := FixedPoint_Div16_Core c1.2 c2.2
    let ret := if c1.1 = E_OK ∧ c2.1 = E_OK ∧ core.1 = E_OK then E_OK else E_NOT_OK
    (ret, FixedPoint_Fix16ToFloat core.2)
  else
    (E_NOT_OK, result)

/-- 8-bit addition with float interface, from FixedPoint_Add8. -/
def FixedPoint_Add8 (val1 val2 : ℚ) (result : ℚ) : Std_ReturnType × ℚ :=
  let c1 := FixedPoint_FloatToFix8 val1
  let c2 := FixedPoint_FloatToFix8 val2
  let core := FixedPoint_Add8_Core c1.2 c2.2
  let ret := if c1.1 = E_OK ∧ c2.1 = E_OK ∧ core.1 = E_OK then E_OK else E_NOT_OK
  (ret, FixedPoint_Fix8ToFloat core.2)

/-- 8-bit subtraction with float interface, from FixedPoint_Sub8. -/
def FixedPoint_Sub8 (val1 val2 : ℚ) (result : ℚ) : Std_ReturnType × ℚ :=
  let c1 := FixedPoint_FloatToFix8 val1
  let c2 := FixedPoint_FloatToFix8 val2
  let core := FixedPoint_Sub8_Core c1.2 c2.2
  let ret := if c1.1 = E_OK ∧ c2.1 = E_OK ∧ core.1 = E_OK then E_OK else E_NOT_OK
  (ret, FixedPoint_Fix8ToFloat core.2)

/-- 8-bit multiplication with float interface, from FixedPoint_Mult8. -/
def FixedPoint_Mult8 (val1 val2 : ℚ) (result : ℚ) : Std_ReturnType × ℚ :=
  let c1 := FixedPoint_FloatToFix8 val1
  let c2 := FixedPoint_FloatToFix8 val2
  let core := FixedPoint_Mult8_Core c1.2 c2.2
  let ret := if c1.1 = E_OK ∧ c2.1 = E_OK ∧ core.1 = E_OK then E_OK else E_NOT_OK
  (ret, FixedPoint_Fix8ToFloat core.2)

/-- 8-bit division with float interface, from FixedPoint_Div8. -/
def FixedPoint_Div8 (val1 val2 : ℚ) (result : ℚ) : Std_ReturnType × ℚ :=
  let c2 := FixedPoint_FloatToFix8 val2
  if c2.2 ≠ 0 then
    let c1 := FixedPoint_FloatToFix8 val1
    let core := FixedPoint_Div8_Core c1.2 c2.2
    let ret := if c1.1 = E_OK ∧ c2.1 = E_OK ∧ core.1 = E_OK then E_OK else E_NOT_OK
    (ret, FixedPoint_Fix8ToFloat core.2)
  else
    (E_NOT_OK, result)

/-! ### Specification-side notions

These definitions follow the wording of the specification, to be compared
with the embedded code above. -/

/-- Round a rational to the nearest integer with ties away from zero,
phrased as the specification does: round the magnitude (half up, which for a
nonnegative number is away from zero) and restore the sign.  `round` is
Mathlib's round-half-up. -/
def roundTiesAway (q : ℚ) : Int := if 0 ≤ q then round q else -round (-q)

/-- Raw value lies in the 16-bit container range. -/
def inRange16 (n : Int) : Prop := FIX16_MIN ≤ n ∧ n ≤ FIX16_MAX

/-- Raw value lies in the 8-bit container range. -/
def inRange8 (n : Int) : Prop := FIX8_MIN ≤ n ∧ n ≤ FIX8_MAX

instance (n : Int) : Decidable (inRange16 n) := by unfold inRange16; infer_instance

instance (n : Int) : Decidable (inRange8 n) := by unfold inRange8; infer_instance

/-- Clamp a raw value into the 16-bit container range. -/
def clamp16 (n : Int) : Int :=
  if n > FIX16_MAX then FIX16_MAX else if n < FIX16_MIN then FIX16_MIN else n

/-- Clamp a raw value into the 8-bit container range. -/
def clamp8 (n : Int) : Int :=
  if n > FIX8_MAX then FIX8_MAX else if n < FIX8_MIN then FIX8_MIN else n

/-- Division result described by the specification: left-shift the magnitude
of `a` by the fractional-bit count `s`, add half the magnitude of `b` as
rounding bias, perform integer division by the magnitude of `b`, and restore
the sign, negative exactly when `a` and `b` have opposite signs. -/
def divRoundSpec (a b : Int) (s : Nat) : Int :=
  (if (a < 0) ≠ (b < 0) then -1 else 1) *
    (((a.natAbs * 2 ^ s + b.natAbs / 2) / b.natAbs : Nat) : Int)

/-- Converted fixed-point operand as the specification describes it: round
the scaled value ties-away, then clamp into the 16-bit container. -/
def fx16 (v : ℚ) : Int := clamp16 (roundTiesAway (v * 256))

/-- Converted fixed-point operand for the 8-bit width. -/
def fx8 (v : ℚ) : Int := clamp8 (roundTiesAway (v * 16))

/-- The 16-bit conversion of v succeeds without clamping. -/
def convOk16 (v : ℚ) : Prop := inRange16 (roundTiesAway (v * 256))

/-- The 8-bit conversion of v succeeds without clamping. -/
def convOk8 (v : ℚ) : Prop := inRange8 (roundTiesAway (v * 16))

instance (v : ℚ) : Decidable (convOk16 v) := by unfold convOk16; infer_instance

instance (v : ℚ) : Decidable (convOk8 v) := by unfold convOk8; infer_instance

lemma SCALE_16_eq : SCALE_16 = 256 := rfl

lemma SCALE_8_eq : SCALE_8 = 16 := rfl

example : FixedPoint_FloatToFix16 (1/512) = (E_OK, 1) := by
  norm_num [FixedPoint_FloatToFix16, truncQ, SCALE_16_eq, FIX16_MAX, FIX16_MIN,
    E_OK, E_NOT_OK, Int.floor_one, Int.ceil_one]

example : FixedPoint_FloatToFix8 (-(1/32)) = (E_OK, -1) := by
  norm_num [FixedPoint_FloatToFix8, truncQ, SCALE_8_eq, FIX8_MAX, FIX8_MIN,
    E_OK, E_NOT_OK, Int.ceil_neg, Int.floor_one]

example : FixedPoint_Mult16_Core 3456 2176 = (E_OK, 29376) := by decide

/-! ### Bridging lemmas between the embedded code and the specification-side
notions -/

lemma truncQ_of_nonneg {q : ℚ} (h : 0 ≤ q) : truncQ q = ⌊q⌋ := by
  simp [truncQ, h]

lemma truncQ_of_neg {q : ℚ} (h : q < 0) : truncQ q = ⌈q⌉ := by
  simp [truncQ, not_le.mpr h]

/-- The converters' rounding branch computes round-to-nearest with ties away
from zero. -/
lemma roundBranch_eq (s : ℚ) :
    (if 0 ≤ s then truncQ (s + 1/2) else truncQ (s - 1/2)) = roundTiesAway s := by
  unfold roundTiesAway
  by_cases h : 0 ≤ s
  · rw [if_pos h, if_pos h, truncQ_of_nonneg (by linarith), round_eq]
  · push_neg at h
    rw [if_neg (not_le.mpr h), if_neg (not_le.mpr h), truncQ_of_neg (by linarith),
      show s - 1/2 = -(-s + 1/2) by ring, Int.ceil_neg, round_eq]

/-- The saturation if-chain of the 16-bit functions, in terms of range test
and clamping. -/
lemma satChain16 (n : Int) :
    ((if n > FIX16_MAX then (E_NOT_OK, FIX16_MAX)
      else if n < FIX16_MIN then (E_NOT_OK, FIX16_MIN)
      else (E_OK, n)) : Std_ReturnType × Int)
      = (if inRange16 n then E_OK else E_NOT_OK, clamp16 n) := by
  unfold inRange16 clamp16 FIX16_MAX FIX16_MIN
  split_ifs <;> simp_all <;> omega

/-- The saturation if-chain of the 8-bit functions. -/
lemma satChain8 (n : Int) :
    ((if n > FIX8_MAX then (E_NOT_OK, FIX8_MAX)
      else if n < FIX8_MIN then (E_NOT_OK, FIX8_MIN)
      else (E_OK, n)) : Std_ReturnType × Int)
      = (if inRange8 n then E_OK else E_NOT_OK, clamp8 n) := by
  unfold inRange8 clamp8 FIX8_MAX FIX8_MIN
  split_ifs <;> simp_all <;> omega

/-- Nat division is the floor of exact rational division. -/
lemma natDiv_cast_floor (m n : Nat) : ((m / n : Nat) : ℤ) = ⌊(m : ℚ) / (n : ℚ)⌋ := by
  rw [← Nat.floor_div_eq_div (α := ℚ) m n, Int.natCast_floor_eq_floor (by positivity)]

/-- Adding half of the discarded unit and dividing is round-half-up of the
exact quotient, for nonnegative magnitudes. -/
lemma magRound_eq (m h : Nat) (hh : 0 < h) :
    (((m + h) / (2 * h) : Nat) : ℤ) = round ((m : ℚ) / ((2 * h : Nat) : ℚ)) := by
  rw [round_eq, natDiv_cast_floor]
  congr 1
  have h2 : ((2 * h : Nat) : ℚ) ≠ 0 := by positivity
  push_cast at h2 ⊢
  field_simp
  ring

/-- The magnitude-domain rounding with sign restoration used by the multiply
cores equals round-to-nearest-ties-away-from-zero of the exact quotient. -/
lemma signedMagRound_eq (p : Int) (h : Nat) (hh : 0 < h) :
    (if p < 0 then -(((p.natAbs + h) / (2 * h) : Nat) : ℤ)
     else (((p.natAbs + h) / (2 * h) : Nat) : ℤ))
      = roundTiesAway ((p : ℚ) / ((2 * h : Nat) : ℚ)) := by
  have hden : (0:ℚ) < ((2 * h : Nat) : ℚ) := by positivity
  unfold roundTiesAway
  by_cases hp : p < 0
  · have hq : ¬ (0 ≤ (p : ℚ) / ((2 * h : Nat) : ℚ)) := by
      rw [not_le]
      apply div_neg_of_neg_of_pos _ hden
      exact_mod_cast hp
    rw [if_pos hp, if_neg hq, magRound_eq _ _ hh, ← neg_div]
    congr 3
    rw [Int.cast_natAbs, abs_of_neg (by exact_mod_cast hp)]
    push_cast
    ring
  · have hp' : 0 ≤ p := not_lt.mp hp
    have hq : 0 ≤ (p : ℚ) / ((2 * h : Nat) : ℚ) := by
      apply div_nonneg _ hden.le
      exact_mod_cast hp'
    rw [if_neg hp, if_pos hq, magRound_eq _ _ hh]
    congr 2
    rw [Int.cast_natAbs, abs_of_nonneg (by exact_mod_cast hp')]

/-- Characterization of the 16-bit converter: round ties-away on the scaled
value, then clamp, with failure status exactly on clamping. -/
lemma floatToFix16_eq (v : ℚ) :
    FixedPoint_FloatToFix16 v
      = (if inRange16 (roundTiesAway (v * 256)) then E_OK else E_NOT_OK,
         clamp16 (roundTiesAway (v * 256))) := by
  have hc : ((SCALE_16 : Nat) : ℚ) = 256 := by norm_num [SCALE_16_eq]
  simp only [FixedPoint_FloatToFix16, hc, roundBranch_eq]
  exact satChain16 _

/-- Characterization of the 8-bit converter. -/
lemma floatToFix8_eq (v : ℚ) :
    FixedPoint_FloatToFix8 v
      = (if inRange8 (roundTiesAway (v * 16)) then E_OK else E_NOT_OK,
         clamp8 (roundTiesAway (v * 16))) := by
  have hc : ((SCALE_8 : Nat) : ℚ) = 16 := by norm_num [SCALE_8_eq]
  simp only [FixedPoint_FloatToFix8, hc, roundBranch_eq]
  exact satChain8 _

/-- Characterization of the 16-bit addition core. -/
lemma add16Core_eq (a b : Int) :
    FixedPoint_Add16_Core a b
      = (if inRange16 (a + b) then E_OK else E_NOT_OK, clamp16 (a + b)) := by
  simp only [FixedPoint_Add16_Core]
  exact satChain16 _

/-- Characterization of the 16-bit subtraction core. -/
lemma sub16Core_eq (a b : Int) :
    FixedPoint_Sub16_Core a b
      = (if inRange16 (a - b) then E_OK else E_NOT_OK, clamp16 (a - b)) := by
  simp only [FixedPoint_Sub16_Core]
  exact satChain16 _

/-- Characterization of the 8-bit addition core. -/
lemma add8Core_eq (a b : Int) :
    FixedPoint_Add8_Core a b
      = (if inRange8 (a + b) then E_OK else E_NOT_OK, clamp8 (a + b)) := by
  simp only [FixedPoint_Add8_Core]
  exact satChain8 _

/-- Characterization of the 8-bit subtraction core. -/
lemma sub8Core_eq (a b : Int) :
    FixedPoint_Sub8_Core a b
      = (if inRange8 (a - b) then E_OK else E_NOT_OK, clamp8 (a - b)) := by
  simp only [FixedPoint_Sub8_Core]
  exact satChain8 _

/-- Characterization of the 16-bit multiplication core: the stored value is
the exact product rescaled by 2^SHIFT_16, rounded to nearest with ties away
from zero, then clamped; failure status exactly on clamping. -/
lemma mult16Core_eq (a b : Int) :
    FixedPoint_Mult16_Core a b
      = (if inRange16 (roundTiesAway (((a * b : Int) : ℚ) / 256)) then E_OK else E_NOT_OK,
         clamp16 (roundTiesAway (((a * b : Int) : ℚ) / 256))) := by
  have hsh : ∀ m : Nat, m >>> SHIFT_16 = m / (2 * 128) := by
    intro m
    rw [Nat.shiftRight_eq_div_pow]
    norm_num [SHIFT_16]
  have hhalf : (1 : Nat) <<< (SHIFT_16 - 1) = 128 := by decide
  have hden : (((2 * 128 : Nat)) : ℚ) = 256 := by norm_num
  simp only [FixedPoint_Mult16_Core, hsh, hhalf]
  rw [signedMagRound_eq (a * b) 128 (by norm_num), hden]
  exact satChain16 _

/-- Characterization of the 8-bit multiplication core. -/
lemma mult8Core_eq (a b : Int) :
    FixedPoint_Mult8_Core a b
      = (if inRange8 (roundTiesAway (((a * b : Int) : ℚ) / 16)) then E_OK else E_NOT_OK,
         clamp8 (roundTiesAway (((a * b : Int) : ℚ) / 16))) := by
  have hsh : ∀ m : Nat, m >>> SHIFT_8 = m / (2 * 8) := by
    intro m
    rw [Nat.shiftRight_eq_div_pow]
    norm_num [SHIFT_8]
  have hhalf : (1 : Nat) <<< (SHIFT_8 - 1) = 8 := by decide
  have hden : (((2 * 8 : Nat)) : ℚ) = 16 := by norm_num
  simp only [FixedPoint_Mult8_Core, hsh, hhalf]
  rw [signedMagRound_eq (a * b) 8 (by norm_num), hden]
  exact satChain8 _

/-- Characterization of the 16-bit division core in terms of the
specification's magnitude-domain division formula. -/
lemma div16Core_eq (a b : Int) :
    FixedPoint_Div16_Core a b
      = (if inRange16 (divRoundSpec a b SHIFT_16) then E_OK else E_NOT_OK,
         clamp16 (divRoundSpec a b SHIFT_16)) := by
  have hq : divRoundSpec a b SHIFT_16
      = (if (a < 0) ≠ (b < 0)
         then -((((a.natAbs <<< SHIFT_16) + (b.natAbs >>> 1)) / b.natAbs : Nat) : ℤ)
         else ((((a.natAbs <<< SHIFT_16) + (b.natAbs >>> 1)) / b.natAbs : Nat) : ℤ)) := by
    unfold divRoundSpec
    rw [Nat.shiftLeft_eq, Nat.shiftRight_eq_div_pow]
    split_ifs <;> ring_nf
  simp only [FixedPoint_Div16_Core, ← hq]
  exact satChain16 _

/-- Characterization of the 8-bit division core. -/
lemma div8Core_eq (a b : Int) :
    FixedPoint_Div8_Core a b
      = (if inRange8 (divRoundSpec a b SHIFT_8) then E_OK else E_NOT_OK,
         clamp8 (divRoundSpec a b SHIFT_8)) := by
  have hq : divRoundSpec a b SHIFT_8
      = (if (a < 0) ≠ (b < 0)
         then -((((a.natAbs <<< SHIFT_8) + (b.natAbs >>> 1)) / b.natAbs : Nat) : ℤ)
         else ((((a.natAbs <<< SHIFT_8) + (b.natAbs >>> 1)) / b.natAbs : Nat) : ℤ)) := by
    unfold divRoundSpec
    rw [Nat.shiftLeft_eq, Nat.shiftRight_eq_div_pow]
    split_ifs <;> ring_nf
  simp only [FixedPoint_Div8_Core, ← hq]
  exact satChain8 _


lemma statusIf_eq_ok (P : Prop) [Decidable P] :
    ((if P then E_OK else E_NOT_OK) = E_OK) ↔ P := by
  split_ifs with h <;> simp [h, E_OK, E_NOT_OK]

lemma statusIf_eq_notOk (P : Prop) [Decidable P] :
    ((if P then E_OK else E_NOT_OK) = E_NOT_OK) ↔ ¬ P := by
  split_ifs with h <;> simp [h, E_OK, E_NOT_OK]

lemma clamp16_range (n : Int) : inRange16 (clamp16 n) := by
  unfold inRange16 clamp16 FIX16_MAX FIX16_MIN
  split_ifs <;> omega

lemma clamp8_range (n : Int) : inRange8 (clamp8 n) := by
  unfold inRange8 clamp8 FIX8_MAX FIX8_MIN
  split_ifs <;> omega

lemma clamp16_of_inRange {n : Int} (h : inRange16 n) : clamp16 n = n := by
  unfold inRange16 FIX16_MAX FIX16_MIN at h
  unfold clamp16 FIX16_MAX FIX16_MIN
  split_ifs <;> omega

lemma clamp8_of_inRange {n : Int} (h : inRange8 n) : clamp8 n = n := by
  unfold inRange8 FIX8_MAX FIX8_MIN at h
  unfold clamp8 FIX8_MAX FIX8_MIN
  split_ifs <;> omega

/-- Wrapper characterization: 16-bit addition. -/
lemma add16_eq (v1 v2 slot : ℚ) :
    FixedPoint_Add16 v1 v2 slot
      = (if convOk16 v1 ∧ convOk16 v2 ∧ inRange16 (fx16 v1 + fx16 v2)
         then E_OK else E_NOT_OK,
         FixedPoint_Fix16ToFloat (clamp16 (fx16 v1 + fx16 v2))) := by
  simp only [FixedPoint_Add16, floatToFix16_eq, add16Core_eq, statusIf_eq_ok,
    convOk16, fx16]

/-- Wrapper characterization: 16-bit subtraction. -/
lemma sub16_eq (v1 v2 slot : ℚ) :
    FixedPoint_Sub16 v1 v2 slot
      = (if convOk16 v1 ∧ convOk16 v2 ∧ inRange16 (fx16 v1 - fx16 v2)
         then E_OK else E_NOT_OK,
         FixedPoint_Fix16ToFloat (clamp16 (fx16 v1 - fx16 v2))) := by
  simp only [FixedPoint_Sub16, floatToFix16_eq, sub16Core_eq, statusIf_eq_ok,
    convOk16, fx16]

/-- Wrapper characterization: 16-bit multiplication. -/
lemma mult16_eq (v1 v2 slot : ℚ) :
    FixedPoint_Mult16 v1 v2 slot
      = (if convOk16 v1 ∧ convOk16 v2 ∧
            inRange16 (roundTiesAway (((fx16 v1 * fx16 v2 : Int) : ℚ) / 256))
         then E_OK else E_NOT_OK,
         FixedPoint_Fix16ToFloat
           (clamp16 (roundTiesAway (((fx16 v1 * fx16 v2 : Int) : ℚ) / 256)))) := by
  simp only [FixedPoint_Mult16, floatToFix16_eq, mult16Core_eq, statusIf_eq_ok,
    convOk16, fx16]

/-- Wrapper characterization: 8-bit addition. -/
lemma add8_eq (v1 v2 slot : ℚ) :
    FixedPoint_Add8 v1 v2 slot
      = (if convOk8 v1 ∧ convOk8 v2 ∧ inRange8 (fx8 v1 + fx8 v2)
         then E_OK else E_NOT_OK,
         FixedPoint_Fix8ToFloat (clamp8 (fx8 v1 + fx8 v2))) := by
  simp only [FixedPoint_Add8, floatToFix8_eq, add8Core_eq, statusIf_eq_ok,
    convOk8, fx8]

/-- Wrapper characterization: 8-bit subtraction. -/
lemma sub8_eq (v1 v2 slot : ℚ) :
    FixedPoint_Sub8 v1 v2 slot
      = (if convOk8 v1 ∧ convOk8 v2 ∧ inRange8 (fx8 v1 - fx8 v2)
         then E_OK else E_NOT_OK,
         FixedPoint_Fix8ToFloat (clamp8 (fx8 v1 - fx8 v2))) := by
  simp only [FixedPoint_Sub8, floatToFix8_eq, sub8Core_eq, statusIf_eq_ok,
    convOk8, fx8]

/-- Wrapper characterization: 8-bit multiplication. -/
lemma mult8_eq (v1 v2 slot : ℚ) :
    FixedPoint_Mult8 v1 v2 slot
      = (if convOk8 v1 ∧ convOk8 v2 ∧
            inRange8 (roundTiesAway (((fx8 v1 * fx8 v2 : Int) : ℚ) / 16))
         then E_OK else E_NOT_OK,
         FixedPoint_Fix8ToFloat
           (clamp8 (roundTiesAway (((fx8 v1 * fx8 v2 : Int) : ℚ) / 16)))) := by
  simp only [FixedPoint_Mult8, floatToFix8_eq, mult8Core_eq, statusIf_eq_ok,
    convOk8, fx8]

lemma roundTiesAway_intCast (n : Int) : roundTiesAway ((n : ℤ) : ℚ) = n := by
  unfold roundTiesAway
  split_ifs with h
  · exact round_intCast n
  · rw [show (-(n : ℚ)) = (((-n : ℤ)) : ℚ) by push_cast; ring, round_intCast]
    ring

lemma le_round_of_half_le {q : ℚ} {m : ℤ} (h : (m : ℚ) - 1/2 ≤ q) : m ≤ round q := by
  rw [round_eq]
  calc m = ⌊((m : ℤ) : ℚ)⌋ := (Int.floor_intCast m).symm
    _ ≤ ⌊q + 1/2⌋ := Int.floor_le_floor (by linarith)

lemma clamp16_of_gt {n : Int} (h : n > FIX16_MAX) : clamp16 n = FIX16_MAX := by
  unfold clamp16
  rw [if_pos h]

lemma clamp16_of_lt {n : Int} (h : n < FIX16_MIN) : clamp16 n = FIX16_MIN := by
  unfold FIX16_MIN at h
  unfold clamp16 FIX16_MAX FIX16_MIN
  split_ifs <;> omega

lemma clamp8_of_gt {n : Int} (h : n > FIX8_MAX) : clamp8 n = FIX8_MAX := by
  unfold clamp8
  rw [if_pos h]

lemma clamp8_of_lt {n : Int} (h : n < FIX8_MIN) : clamp8 n = FIX8_MIN := by
  unfold FIX8_MIN at h
  unfold clamp8 FIX8_MAX FIX8_MIN
  split_ifs <;> omega

/-! ### The claims -/

/-- Claim C1: for every call to the eight public operations with a non-null
output slot and any float inputs, every raw fixed-point value produced by the
float-to-fixed converters and by the core operations lies in the container
range: [-32768, 32767] for the 16-bit width and [-128, 127] for the 8-bit
width; no out-of-range raw value is ever stored. -/
theorem C1_raw_range_invariant :
    ∀ (val : ℚ) (a b : Int),
      inRange16 (FixedPoint_FloatToFix16 val).2 ∧
      inRange8 (FixedPoint_FloatToFix8 val).2 ∧
      inRange16 (FixedPoint_Add16_Core a b).2 ∧
      inRange16 (FixedPoint_Sub16_Core a b).2 ∧
      inRange16 (FixedPoint_Mult16_Core a b).2 ∧
      inRange16 (FixedPoint_Div16_Core a b).2 ∧
      inRange8 (FixedPoint_Add8_Core a b).2 ∧
      inRange8 (FixedPoint_Sub8_Core a b).2 ∧
      inRange8 (FixedPoint_Mult8_Core a b).2 ∧
      inRange8 (FixedPoint_Div8_Core a b).2 := by
  intro val a b
  refine ⟨?_, ?_, ?_, ?_, ?_, ?_, ?_, ?_, ?_, ?_⟩ <;>
    simp only [floatToFix16_eq, floatToFix8_eq, add16Core_eq, sub16Core_eq,
      mult16Core_eq, div16Core_eq, add8Core_eq, sub8Core_eq, mult8Core_eq,
      div8Core_eq] <;>
    first
      | exact clamp16_range _
      | exact clamp8_range _

/-- Claim C2: for every float input and both widths, the float-to-fixed
converter computes the scaled value val * 2^fractionalBits and rounds it to
the nearest integer with ties away from zero (adding 0.5 then truncating for
non-negative scaled values, subtracting 0.5 then truncating for negative
ones); in particular, converting +0.5 times the resolution yields raw +1
with status Ok and converting -0.5 times the resolution yields raw -1 with
status Ok.  Stated with the spec-side rounding roundTiesAway, which is shown
to be nearest (within half a unit) and ties-away on exact halves. -/
theorem C2_converter_rounding :
    (∀ val : ℚ, FixedPoint_FloatToFix16 val
        = (if inRange16 (roundTiesAway (val * 256)) then E_OK else E_NOT_OK,
           clamp16 (roundTiesAway (val * 256)))) ∧
    (∀ val : ℚ, FixedPoint_FloatToFix8 val
        = (if inRange8 (roundTiesAway (val * 16)) then E_OK else E_NOT_OK,
           clamp8 (roundTiesAway (val * 16)))) ∧
    (∀ q : ℚ, |q - (roundTiesAway q : ℚ)| ≤ 1/2) ∧
    (∀ n : ℕ, roundTiesAway ((n : ℚ) + 1/2) = n + 1) ∧
    (∀ n : ℕ, roundTiesAway (-((n : ℚ) + 1/2)) = -(n + 1)) ∧
    FixedPoint_FloatToFix16 (1/2 * (1/256)) = (E_OK, 1) ∧
    FixedPoint_FloatToFix16 (-(1/2 * (1/256))) = (E_OK, -1) ∧
    FixedPoint_FloatToFix8 (1/2 * (1/16)) = (E_OK, 1) ∧
    FixedPoint_FloatToFix8 (-(1/2 * (1/16))) = (E_OK, -1) := by
  have hnear : ∀ q : ℚ, |q - (roundTiesAway q : ℚ)| ≤ 1/2 := by
    intro q
    unfold roundTiesAway
    split_ifs with h
    · exact abs_sub_round q
    · push_cast
      rw [show q - -(round (-q) : ℚ) = -((-q) - (round (-q) : ℚ)) by ring, abs_neg]
      exact abs_sub_round (-q)
  have htieUp : ∀ n : ℕ, roundTiesAway ((n : ℚ) + 1/2) = n + 1 := by
    intro n
    unfold roundTiesAway
    rw [if_pos (by positivity), round_eq,
      show ((n : ℚ) + 1/2 + 1/2) = (((n + 1 : ℕ) : ℤ) : ℚ) by push_cast; ring,
      Int.floor_intCast]
    push_cast
    ring
  have htieDown : ∀ n : ℕ, roundTiesAway (-((n : ℚ) + 1/2)) = -(n + 1) := by
    intro n
    have hpos : (0:ℚ) < (n : ℚ) + 1/2 := by positivity
    unfold roundTiesAway
    rw [if_neg (by push_neg; linarith), neg_neg, round_eq,
      show ((n : ℚ) + 1/2 + 1/2) = (((n + 1 : ℕ) : ℤ) : ℚ) by push_cast; ring,
      Int.floor_intCast]
    push_cast
    ring
  refine ⟨floatToFix16_eq, floatToFix8_eq, hnear, htieUp, htieDown, ?_, ?_, ?_, ?_⟩
  · norm_num [FixedPoint_FloatToFix16, truncQ, SCALE_16_eq, FIX16_MAX, FIX16_MIN,
      E_OK, E_NOT_OK, Int.floor_one, Int.ceil_one]
  · norm_num [FixedPoint_FloatToFix16, truncQ, SCALE_16_eq, FIX16_MAX, FIX16_MIN,
      E_OK, E_NOT_OK, Int.ceil_neg, Int.floor_one]
  · norm_num [FixedPoint_FloatToFix8, truncQ, SCALE_8_eq, FIX8_MAX, FIX8_MIN,
      E_OK, E_NOT_OK, Int.floor_one, Int.ceil_one]
  · norm_num [FixedPoint_FloatToFix8, truncQ, SCALE_8_eq, FIX8_MAX, FIX8_MIN,
      E_OK, E_NOT_OK, Int.ceil_neg, Int.floor_one]

/-- Claim C3 counterexample: the input 131069/1024 is strictly greater than
MAX_REAL(16) = 32767/256, yet the 16-bit conversion returns status Ok (it
rounds down to raw 32767), refuting the claim that every input above
MAX_REAL yields status Saturated. -/
theorem C3_counterexample :
    (32767 : ℚ)/256 < 131069/1024 ∧
    FixedPoint_FloatToFix16 (131069/1024) = (E_OK, 32767) := by
  constructor
  · norm_num
  · norm_num [FixedPoint_FloatToFix16, truncQ, SCALE_16_eq, FIX16_MAX, FIX16_MIN,
      E_OK, E_NOT_OK]

/-- Claim C3 (amended): saturation with status Saturated is guaranteed only
from half a raw unit above the top boundary on: for every x with
x ≥ (MAX + 1/2)/2^fractionalBits the conversion yields raw MAX with status
Saturated, and symmetrically for x ≤ (MIN - 1/2)/2^fractionalBits it yields
raw MIN with status Saturated, for both widths.  (Inputs strictly between
MAX_REAL and (MAX + 1/2)/scale round to raw MAX with status Ok, as the
counterexample shows.) -/
theorem C3_saturation_amended :
    ∀ x y u v : ℚ,
      (32767 + 1/2)/256 ≤ x → y ≤ (-32768 - 1/2)/256 →
      (127 + 1/2)/16 ≤ u → v ≤ (-128 - 1/2)/16 →
      FixedPoint_FloatToFix16 x = (E_NOT_OK, FIX16_MAX) ∧
      FixedPoint_FloatToFix16 y = (E_NOT_OK, FIX16_MIN) ∧
      FixedPoint_FloatToFix8 u = (E_NOT_OK, FIX8_MAX) ∧
      FixedPoint_FloatToFix8 v = (E_NOT_OK, FIX8_MIN) := by
  intro x y u v hx hy hu hv
  rw [div_le_iff₀ (by norm_num : (0:ℚ) < 256)] at hx
  rw [le_div_iff₀ (by norm_num : (0:ℚ) < 256)] at hy
  rw [div_le_iff₀ (by norm_num : (0:ℚ) < 16)] at hu
  rw [le_div_iff₀ (by norm_num : (0:ℚ) < 16)] at hv
  refine ⟨?_, ?_, ?_, ?_⟩
  · have hr : (32768 : ℤ) ≤ roundTiesAway (x * 256) := by
      unfold roundTiesAway
      rw [if_pos (by linarith)]
      exact le_round_of_half_le (by push_cast; linarith)
    rw [floatToFix16_eq,
      if_neg (by unfold inRange16 FIX16_MAX FIX16_MIN; omega),
      clamp16_of_gt (by unfold FIX16_MAX; omega)]
  · have hr : roundTiesAway (y * 256) ≤ -32769 := by
      unfold roundTiesAway
      rw [if_neg (by push_neg; linarith)]
      have : (32769 : ℤ) ≤ round (-(y * 256)) :=
        le_round_of_half_le (by push_cast; linarith)
      omega
    rw [floatToFix16_eq,
      if_neg (by unfold inRange16 FIX16_MAX FIX16_MIN; omega),
      clamp16_of_lt (by unfold FIX16_MIN; omega)]
  · have hr : (128 : ℤ) ≤ roundTiesAway (u * 16) := by
      unfold roundTiesAway
      rw [if_pos (by linarith)]
      exact le_round_of_half_le (by push_cast; linarith)
    rw [floatToFix8_eq,
      if_neg (by unfold inRange8 FIX8_MAX FIX8_MIN; omega),
      clamp8_of_gt (by unfold FIX8_MAX; omega)]
  · have hr : roundTiesAway (v * 16) ≤ -129 := by
      unfold roundTiesAway
      rw [if_neg (by push_neg; linarith)]
      have : (129 : ℤ) ≤ round (-(v * 16)) :=
        le_round_of_half_le (by push_cast; linarith)
      omega
    rw [floatToFix8_eq,
      if_neg (by unfold inRange8 FIX8_MAX FIX8_MIN; omega),
      clamp8_of_lt (by unfold FIX8_MIN; omega)]

/-- Witness for the amended claim C3 at the concrete inputs 200, -200 for
the 16-bit width and 10, -10 for the 8-bit width. -/
theorem C3_saturation_amended_witness :
    ((32767 + 1/2)/256 : ℚ) ≤ 200 ∧ ((-200 : ℚ) ≤ (-32768 - 1/2)/256) ∧
    ((127 + 1/2)/16 : ℚ) ≤ 10 ∧ ((-10 : ℚ) ≤ (-128 - 1/2)/16) ∧
    (FixedPoint_FloatToFix16 200 = (E_NOT_OK, FIX16_MAX) ∧
     FixedPoint_FloatToFix16 (-200) = (E_NOT_OK, FIX16_MIN) ∧
     FixedPoint_FloatToFix8 10 = (E_NOT_OK, FIX8_MAX) ∧
     FixedPoint_FloatToFix8 (-10) = (E_NOT_OK, FIX8_MIN)) :=
  ⟨by norm_num, by norm_num, by norm_num, by norm_num,
   C3_saturation_amended 200 (-200) 10 (-10)
     (by norm_num) (by norm_num) (by norm_num) (by norm_num)⟩

/-- Claim C4: for every pair of raw operands, the core multiply computes the
widened product, rounds it in the magnitude domain (absolute value, plus
1 << (fractionalBits - 1), shift right by fractionalBits, sign restored),
and clamps: the stored result equals the product rescaled by
2^fractionalBits rounded to nearest with ties away from zero and then
clamped, with status Saturated exactly when clamping occurred. -/
theorem C4_mult_core_rounding :
    ∀ a b : Int,
      FixedPoint_Mult16_Core a b
        = (if inRange16 (roundTiesAway (((a * b : Int) : ℚ) / 256))
           then E_OK else E_NOT_OK,
           clamp16 (roundTiesAway (((a * b : Int) : ℚ) / 256))) ∧
      FixedPoint_Mult8_Core a b
        = (if inRange8 (roundTiesAway (((a * b : Int) : ℚ) / 16))
           then E_OK else E_NOT_OK,
           clamp8 (roundTiesAway (((a * b : Int) : ℚ) / 16))) :=
  fun a b => ⟨mult16Core_eq a b, mult8Core_eq a b⟩

/-- Claim C5: for raw container operands with nonzero divisor, the core
divide computes the magnitude-domain quotient described by the spec
(divRoundSpec: shift |a| left by fractionalBits, add half of |b|, divide by
|b|, restore the sign when the operands' signs differ), clamps it with
status Saturated exactly when clamping occurred, and the widened
intermediate magnitude cannot overflow its 64-bit (resp. 32-bit) domain. -/
theorem C5_div_core :
    ∀ a b a8 b8 : Int,
      b ≠ 0 → FIX16_MIN ≤ a → a ≤ FIX16_MAX → FIX16_MIN ≤ b → b ≤ FIX16_MAX →
      b8 ≠ 0 → FIX8_MIN ≤ a8 → a8 ≤ FIX8_MAX → FIX8_MIN ≤ b8 → b8 ≤ FIX8_MAX →
      (FixedPoint_Div16_Core a b
         = (if inRange16 (divRoundSpec a b SHIFT_16) then E_OK else E_NOT_OK,
            clamp16 (divRoundSpec a b SHIFT_16))) ∧
      (a.natAbs <<< SHIFT_16) + (b.natAbs >>> 1) < 2 ^ 64 ∧
      (FixedPoint_Div8_Core a8 b8
         = (if inRange8 (divRoundSpec a8 b8 SHIFT_8) then E_OK else E_NOT_OK,
            clamp8 (divRoundSpec a8 b8 SHIFT_8))) ∧
      (a8.natAbs <<< SHIFT_8) + (b8.natAbs >>> 1) < 2 ^ 32 := by
  intro a b a8 b8 _ ha1 ha2 hb1 hb2 _ hc1 hc2 hd1 hd2
  simp only [FIX16_MIN, FIX16_MAX] at ha1 ha2 hb1 hb2
  simp only [FIX8_MIN, FIX8_MAX] at hc1 hc2 hd1 hd2
  refine ⟨div16Core_eq a b, ?_, div8Core_eq a8 b8, ?_⟩
  · have h1 : a.natAbs ≤ 32768 := by omega
    have h2 : b.natAbs ≤ 32768 := by omega
    simp only [Nat.shiftLeft_eq, Nat.shiftRight_eq_div_pow, SHIFT_16]
    norm_num
    omega
  · have h1 : a8.natAbs ≤ 128 := by omega
    have h2 : b8.natAbs ≤ 128 := by omega
    simp only [Nat.shiftLeft_eq, Nat.shiftRight_eq_div_pow, SHIFT_8]
    norm_num
    omega

/-- Witness for claim C5 at the concrete operands a = 300, b = -7 (16-bit)
and a8 = 100, b8 = 3 (8-bit). -/
theorem C5_div_core_witness :
    ((-7 : Int) ≠ 0 ∧ FIX16_MIN ≤ (300 : Int) ∧ (300 : Int) ≤ FIX16_MAX ∧
     FIX16_MIN ≤ (-7 : Int) ∧ (-7 : Int) ≤ FIX16_MAX ∧
     (3 : Int) ≠ 0 ∧ FIX8_MIN ≤ (100 : Int) ∧ (100 : Int) ≤ FIX8_MAX ∧
     FIX8_MIN ≤ (3 : Int) ∧ (3 : Int) ≤ FIX8_MAX) ∧
    ((FixedPoint_Div16_Core 300 (-7)
        = (if inRange16 (divRoundSpec 300 (-7) SHIFT_16) then E_OK else E_NOT_OK,
           clamp16 (divRoundSpec 300 (-7) SHIFT_16))) ∧
     ((300 : Int).natAbs <<< SHIFT_16) + ((-7 : Int).natAbs >>> 1) < 2 ^ 64 ∧
     (FixedPoint_Div8_Core 100 3
        = (if inRange8 (divRoundSpec 100 3 SHIFT_8) then E_OK else E_NOT_OK,
           clamp8 (divRoundSpec 100 3 SHIFT_8))) ∧
     ((100 : Int).natAbs <<< SHIFT_8) + ((3 : Int).natAbs >>> 1) < 2 ^ 32) :=
  ⟨by decide,
   C5_div_core 300 (-7) 100 3 (by decide) (by decide) (by decide) (by decide)
     (by decide) (by decide) (by decide) (by decide) (by decide) (by decide)⟩

/-- Claim C6: for every call to a public Add, Sub or Mult wrapper (both
widths) with a non-null output slot, the returned status is Saturated
(E_NOT_OK) if and only if clamping occurred somewhere in the call chain (in
the conversion of either operand or in the core operation), Ok otherwise,
and the numeric result, possibly saturated, is always written to the output
slot. -/
theorem C6_wrapper_status :
    ∀ v1 v2 slot : ℚ,
      ((FixedPoint_Add16 v1 v2 slot).1 = E_NOT_OK ↔
        ¬(convOk16 v1 ∧ convOk16 v2 ∧ inRange16 (fx16 v1 + fx16 v2))) ∧
      (FixedPoint_Add16 v1 v2 slot).2
        = FixedPoint_Fix16ToFloat (clamp16 (fx16 v1 + fx16 v2)) ∧
      ((FixedPoint_Sub16 v1 v2 slot).1 = E_NOT_OK ↔
        ¬(convOk16 v1 ∧ convOk16 v2 ∧ inRange16 (fx16 v1 - fx16 v2))) ∧
      (FixedPoint_Sub16 v1 v2 slot).2
        = FixedPoint_Fix16ToFloat (clamp16 (fx16 v1 - fx16 v2)) ∧
      ((FixedPoint_Mult16 v1 v2 slot).1 = E_NOT_OK ↔
        ¬(convOk16 v1 ∧ convOk16 v2 ∧
          inRange16 (roundTiesAway (((fx16 v1 * fx16 v2 : Int) : ℚ) / 256)))) ∧
      (FixedPoint_Mult16 v1 v2 slot).2
        = FixedPoint_Fix16ToFloat
            (clamp16 (roundTiesAway (((fx16 v1 * fx16 v2 : Int) : ℚ) / 256))) ∧
      ((FixedPoint_Add8 v1 v2 slot).1 = E_NOT_OK ↔
        ¬(convOk8 v1 ∧ convOk8 v2 ∧ inRange8 (fx8 v1 + fx8 v2))) ∧
      (FixedPoint_Add8 v1 v2 slot).2
        = FixedPoint_Fix8ToFloat (clamp8 (fx8 v1 + fx8 v2)) ∧
      ((FixedPoint_Sub8 v1 v2 slot).1 = E_NOT_OK ↔
        ¬(convOk8 v1 ∧ convOk8 v2 ∧ inRange8 (fx8 v1 - fx8 v2))) ∧
      (FixedPoint_Sub8 v1 v2 slot).2
        = FixedPoint_Fix8ToFloat (clamp8 (fx8 v1 - fx8 v2)) ∧
      ((FixedPoint_Mult8 v1 v2 slot).1 = E_NOT_OK ↔
        ¬(convOk8 v1 ∧ convOk8 v2 ∧
          inRange8 (roundTiesAway (((fx8 v1 * fx8 v2 : Int) : ℚ) / 16)))) ∧
      (FixedPoint_Mult8 v1 v2 slot).2
        = FixedPoint_Fix8ToFloat
            (clamp8 (roundTiesAway (((fx8 v1 * fx8 v2 : Int) : ℚ) / 16))) := by
  intro v1 v2 slot
  simp only [add16_eq, sub16_eq, mult16_eq, add8_eq, sub8_eq, mult8_eq,
    statusIf_eq_notOk]
  tauto

/-- Claim C7: for every call to a public Div wrapper with a non-null output
slot in which the divisor's converted fixed-point representation is exactly
zero raw, the wrapper returns failure without performing the core division,
and the output slot is left unmodified. -/
theorem C7_div_zero_slot_unmodified :
    ∀ (v1 v2 u1 u2 slot16 slot8 : ℚ),
      (FixedPoint_FloatToFix16 v2).2 = 0 →
      (FixedPoint_FloatToFix8 u2).2 = 0 →
      FixedPoint_Div16 v1 v2 slot16 = (E_NOT_OK, slot16) ∧
      FixedPoint_Div8 u1 u2 slot8 = (E_NOT_OK, slot8) := by
  intro v1 v2 u1 u2 slot16 slot8 h16 h8
  constructor
  · simp only [FixedPoint_Div16, h16]
    norm_num
  · simp only [FixedPoint_Div8, h8]
    norm_num

/-- Witness for claim C7 at the concrete call Div(5, 1/1000) with slot 42
(16-bit) and Div(3, 1/1000) with slot 7 (8-bit): the divisor 1/1000 is a
nonzero real below half the resolution, so its fixed representation is raw
zero, the calls fail and the slots are untouched. -/
theorem C7_div_zero_slot_unmodified_witness :
    (FixedPoint_FloatToFix16 (1/1000)).2 = 0 ∧
    (FixedPoint_FloatToFix8 (1/1000)).2 = 0 ∧
    (FixedPoint_Div16 5 (1/1000) 42 = (E_NOT_OK, 42) ∧
     FixedPoint_Div8 3 (1/1000) 7 = (E_NOT_OK, 7)) := by
  have h16 : (FixedPoint_FloatToFix16 (1/1000)).2 = 0 := by
    norm_num [FixedPoint_FloatToFix16, truncQ, SCALE_16_eq, FIX16_MAX, FIX16_MIN,
      E_OK, E_NOT_OK]
  have h8 : (FixedPoint_FloatToFix8 (1/1000)).2 = 0 := by
    norm_num [FixedPoint_FloatToFix8, truncQ, SCALE_8_eq, FIX8_MAX, FIX8_MIN,
      E_OK, E_NOT_OK]
  exact ⟨h16, h8, C7_div_zero_slot_unmodified 5 (1/1000) 3 (1/1000) 42 7 h16 h8⟩

/-- Claim C8 counterexample: a division-by-zero call and a saturating
division call return the very same status value E_NOT_OK, so the returned
status is not a third outcome distinct from Saturated and a caller cannot
tell the two apart from the status alone.  (Div16(5, 0) fails with the slot
untouched; Div16(20000, 1) saturates the dividend conversion and writes
32767/256.) -/
theorem C8_counterexample :
    FixedPoint_Div16 5 0 42 = (E_NOT_OK, 42) ∧
    FixedPoint_Div16 20000 1 42 = (E_NOT_OK, 32767/256) ∧
    (FixedPoint_Div16 5 0 42).1 = (FixedPoint_Div16 20000 1 42).1 := by
  have h1 : FixedPoint_Div16 5 0 42 = (E_NOT_OK, 42) := by
    norm_num [FixedPoint_Div16, FixedPoint_FloatToFix16, truncQ, SCALE_16_eq,
      FIX16_MAX, FIX16_MIN, E_OK, E_NOT_OK]
  have h2 : FixedPoint_Div16 20000 1 42 = (E_NOT_OK, 32767/256) := by
    norm_num [FixedPoint_Div16, FixedPoint_FloatToFix16, FixedPoint_Div16_Core,
      FixedPoint_Fix16ToFloat, truncQ, SCALE_16_eq, SHIFT_16, FIX16_MAX, FIX16_MIN,
      E_OK, E_NOT_OK, Nat.shiftLeft_eq, Nat.shiftRight_eq_div_pow]
  exact ⟨h1, h2, by rw [h1, h2]⟩

/-- Claim C8 (amended): the division variants do not return a third status
value; Std_ReturnType carries only E_OK and E_NOT_OK, and a division by zero
(converted divisor raw zero) is reported with the same failure code E_NOT_OK
used for saturation.  A caller distinguishes division by zero not by the
status but by the output slot being left unmodified. -/
theorem C8_status_amended :
    ∀ (v1 v2 u1 u2 s16 s8 : ℚ),
      ((FixedPoint_Div16 v1 v2 s16).1 = E_OK ∨
       (FixedPoint_Div16 v1 v2 s16).1 = E_NOT_OK) ∧
      ((FixedPoint_Div8 u1 u2 s8).1 = E_OK ∨
       (FixedPoint_Div8 u1 u2 s8).1 = E_NOT_OK) ∧
      ((FixedPoint_FloatToFix16 v2).2 = 0 →
        FixedPoint_Div16 v1 v2 s16 = (E_NOT_OK, s16)) ∧
      ((FixedPoint_FloatToFix8 u2).2 = 0 →
        FixedPoint_Div8 u1 u2 s8 = (E_NOT_OK, s8)) := by
  intro v1 v2 u1 u2 s16 s8
  refine ⟨?_, ?_, ?_, ?_⟩
  · simp only [FixedPoint_Div16]
    split_ifs <;> simp
  · simp only [FixedPoint_Div8]
    split_ifs <;> simp
  · intro h
    simp only [FixedPoint_Div16, h]
    norm_num
  · intro h
    simp only [FixedPoint_Div8, h]
    norm_num

/-- Witness for the amended claim C8 at the concrete calls Div16(9, 0, slot
11) and Div8(4, 0, slot 13). -/
theorem C8_status_amended_witness :
    (FixedPoint_FloatToFix16 (0:ℚ)).2 = 0 ∧
    (FixedPoint_FloatToFix8 (0:ℚ)).2 = 0 ∧
    ((FixedPoint_Div16 9 0 11).1 = E_OK ∨ (FixedPoint_Div16 9 0 11).1 = E_NOT_OK) ∧
    FixedPoint_Div16 9 0 11 = (E_NOT_OK, 11) ∧
    FixedPoint_Div8 4 0 13 = (E_NOT_OK, 13) := by
  have h16 : (FixedPoint_FloatToFix16 (0:ℚ)).2 = 0 := by
    norm_num [FixedPoint_FloatToFix16, truncQ, SCALE_16_eq, FIX16_MAX, FIX16_MIN,
      E_OK, E_NOT_OK]
  have h8 : (FixedPoint_FloatToFix8 (0:ℚ)).2 = 0 := by
    norm_num [FixedPoint_FloatToFix8, truncQ, SCALE_8_eq, FIX8_MAX, FIX8_MIN,
      E_OK, E_NOT_OK]
  obtain ⟨h1, _, h3, h4⟩ := C8_status_amended 9 0 4 0 11 13
  exact ⟨h16, h8, h1, h3 h16, h4 h8⟩

/-- Claim C9: round-trip identity at the fixed-point level: converting any
in-range raw value to float and back stores exactly the same raw value and
returns Ok, for both widths. -/
theorem C9_roundtrip :
    ∀ v w : Int,
      FIX16_MIN ≤ v → v ≤ FIX16_MAX → FIX8_MIN ≤ w → w ≤ FIX8_MAX →
      FixedPoint_FloatToFix16 (FixedPoint_Fix16ToFloat v) = (E_OK, v) ∧
      FixedPoint_FloatToFix8 (FixedPoint_Fix8ToFloat w) = (E_OK, w) := by
  intro v w hv1 hv2 hw1 hw2
  constructor
  · rw [floatToFix16_eq]
    have hs : (FixedPoint_Fix16ToFloat v) * 256 = ((v : ℤ) : ℚ) := by
      unfold FixedPoint_Fix16ToFloat
      rw [show ((SCALE_16 : Nat) : ℚ) = 256 by norm_num [SCALE_16_eq]]
      field_simp
    rw [hs, roundTiesAway_intCast]
    have hin : inRange16 v := ⟨hv1, hv2⟩
    rw [if_pos hin, clamp16_of_inRange hin]
  · rw [floatToFix8_eq]
    have hs : (FixedPoint_Fix8ToFloat w) * 16 = ((w : ℤ) : ℚ) := by
      unfold FixedPoint_Fix8ToFloat
      rw [show ((SCALE_8 : Nat) : ℚ) = 16 by norm_num [SCALE_8_eq]]
      field_simp
    rw [hs, roundTiesAway_intCast]
    have hin : inRange8 w := ⟨hw1, hw2⟩
    rw [if_pos hin, clamp8_of_inRange hin]

/-- Witness for claim C9 at the concrete raw values v = -32768 and w = 127. -/
theorem C9_roundtrip_witness :
    (FIX16_MIN ≤ (-32768 : Int) ∧ (-32768 : Int) ≤ FIX16_MAX ∧
     FIX8_MIN ≤ (127 : Int) ∧ (127 : Int) ≤ FIX8_MAX) ∧
    (FixedPoint_FloatToFix16 (FixedPoint_Fix16ToFloat (-32768)) = (E_OK, -32768) ∧
     FixedPoint_FloatToFix8 (FixedPoint_Fix8ToFloat 127) = (E_OK, 127)) :=
  ⟨by decide,
   C9_roundtrip (-32768) 127 (by decide) (by decide) (by decide) (by decide)⟩

/-- Claim C10: commutativity of the public Add and Mult wrappers: swapping
the two float operands yields the same status and the same value written to
the output slot, for FixedPoint_Add16, FixedPoint_Add8, FixedPoint_Mult16
and FixedPoint_Mult8. -/
theorem C10_add_mult_commutative :
    ∀ v1 v2 slot : ℚ,
      FixedPoint_Add16 v1 v2 slot = FixedPoint_Add16 v2 v1 slot ∧
      FixedPoint_Add8 v1 v2 slot = FixedPoint_Add8 v2 v1 slot ∧
      FixedPoint_Mult16 v1 v2 slot = FixedPoint_Mult16 v2 v1 slot ∧
      FixedPoint_Mult8 v1 v2 slot = FixedPoint_Mult8 v2 v1 slot := by
  intro v1 v2 slot
  refine ⟨?_, ?_, ?_, ?_⟩
  · rw [add16_eq, add16_eq, add_comm (fx16 v2) (fx16 v1)]
    exact congrArg₂ Prod.mk (if_congr (by tauto) rfl rfl) rfl
  · rw [add8_eq, add8_eq, add_comm (fx8 v2) (fx8 v1)]
    exact congrArg₂ Prod.mk (if_congr (by tauto) rfl rfl) rfl
  · rw [mult16_eq, mult16_eq, mul_comm (fx16 v2) (fx16 v1)]
    exact congrArg₂ Prod.mk (if_congr (by tauto) rfl rfl) rfl
  · rw [mult8_eq, mult8_eq, mul_comm (fx8 v2) (fx8 v1)]
    exact congrArg₂ Prod.mk (if_congr (by tauto) rfl rfl) rfl
